import Mathlib

/-!
# Verification of the SASL mechanism core of strophejs

Shallow embedding of `src/src/core.js` (the `SASLMechanism` base class and
the surrounding authentication machinery).  JavaScript `this` state becomes
explicit record-passing: each lifecycle method takes a mechanism record and
returns the updated record.  Thrown `Error` values become `Except.error`
carrying the thrown message.  An absent (`undefined`) argument becomes
`Option.none`.  The connection object is an opaque type parameter `Conn`.
-/

set_option linter.unusedVariables false

/-- Default applicability check of the base mechanism
(`SASLMechanism.test` in `src/src/core.js`): the JavaScript method ignores
its `connection` argument entirely and returns `true`, so we embed it
polymorphically in the argument type. -/
def defaultTest {α : Type} (connection : α) : Bool :=
  true

/-- Default challenge handler of the base mechanism
(`SASLMechanism.onChallenge` in `src/src/core.js`): it unconditionally
throws `Error('You should implement challenge handling!')`. -/
def defaultOnChallenge {Conn : Type} (connection : Conn) (challenge : Option String) :
    Except String String :=
  Except.error "You should implement challenge handling!"

/-- The `SASLMechanism` object state (`src/src/core.js`).  The constructor
fields `mechname`, `isClientFirst` and `priority` are stored directly; the
mutable back-reference `this._connection` is an `Option Conn` (absent until
`onStart`).  `test` and `onChallenge` are overridable methods, so they are
function-valued fields whose defaults are the base-class bodies. -/
structure SASLMechanism (Conn : Type) where
  mechname : String
  isClientFirst : Bool
  priority : Int
  _connection : Option Conn := none
  test : Conn → Bool := defaultTest
  onChallenge : Conn → Option String → Except String String := defaultOnChallenge

/-- The constructor `new SASLMechanism(name, isClientFirst, priority)`:
stores the three data fields; methods keep their base-class defaults. -/
def SASLMechanism.make {Conn : Type} (name : String) (isClientFirst : Bool)
    (priority : Int) : SASLMechanism Conn :=
  { mechname := name, isClientFirst := isClientFirst, priority := priority }

/-- `SASLMechanism.onStart(connection)`: stores the connection reference. -/
def SASLMechanism.onStart {Conn : Type} (m : SASLMechanism Conn) (connection : Conn) :
    SASLMechanism Conn :=
  { m with _connection := some connection }

/-- `SASLMechanism.clientChallenge(connection)`: throws when
`isClientFirst` is false, otherwise returns `this.onChallenge(connection)`
(the `challenge` argument absent, i.e. `none`). -/
def SASLMechanism.clientChallenge {Conn : Type} (m : SASLMechanism Conn)
    (connection : Conn) : Except String String :=
  if !m.isClientFirst then
    Except.error "clientChallenge should not be called if isClientFirst is false!"
  else
    m.onChallenge connection none

/-- `SASLMechanism.onFailure()`: releases the connection reference. -/
def SASLMechanism.onFailure {Conn : Type} (m : SASLMechanism Conn) : SASLMechanism Conn :=
  { m with _connection := none }

/-- `SASLMechanism.onSuccess()`: releases the connection reference. -/
def SASLMechanism.onSuccess {Conn : Type} (m : SASLMechanism Conn) : SASLMechanism Conn :=
  { m with _connection := none }

/-- Modelled from the spec: default priorities of the concrete mechanism
variants.  The variant source files (`sasl-sha512.js`, `sasl-plain.js`,
etc.) are not part of this source tree; the values follow the spec and the
class documentation block in `src/src/core.js`. -/
def defaultMechanismPriorities : List (String × Int) :=
  [("SCRAM-SHA-512", 72), ("SCRAM-SHA-384", 71), ("SCRAM-SHA-256", 70),
   ("SCRAM-SHA-1", 60), ("PLAIN", 50), ("OAUTHBEARER", 40),
   ("X-OAUTH2", 30), ("ANONYMOUS", 20), ("EXTERNAL", 10)]

/-- Outcome of mechanism selection. -/
inductive SelectionResult (Conn : Type) where
  | selected (m : SASLMechanism Conn)
  | noCompatibleMechanism

/-- Modelled from the spec: the filtered intersection considered by the
selector — registered mechanisms whose name the server advertised and
whose `test(connection)` returns true, in registration order.  (The
selector lives in `connection.js`, which is not part of this source
tree.) -/
def saslCandidates {Conn : Type} (registry : List (SASLMechanism Conn))
    (advertised : List String) (connection : Conn) : List (SASLMechanism Conn) :=
  registry.filter (fun m => advertised.contains m.mechname && m.test connection)

/-- Modelled from the spec: pick the candidate of strictly highest
`priority`; on a tie, the earlier (first-registered) candidate wins, so
the fold only replaces the running best on a strictly greater priority. -/
def bestByPriority {Conn : Type} :
    SASLMechanism Conn → List (SASLMechanism Conn) → SASLMechanism Conn
  | c, [] => c
  | c, x :: xs => bestByPriority (if c.priority < x.priority then x else c) xs

/-- Modelled from the spec: selection intersects the server-advertised
names with the registry, discards mechanisms failing `test`, returns the
highest-priority remaining mechanism (stable, first-registered tie-break),
and reports `noCompatibleMechanism` — a value, not a crash — when the
filtered intersection is empty. -/
def selectMechanism {Conn : Type} (registry : List (SASLMechanism Conn))
    (advertised : List String) (connection : Conn) : SelectionResult Conn :=
  match saslCandidates registry advertised connection with
  | [] => SelectionResult.noCompatibleMechanism
  | c :: cs => SelectionResult.selected (bestByPriority c cs)

/-- Demonstration instances for concrete evaluation. -/
def demoClientFirst : SASLMechanism Nat :=
  SASLMechanism.make "PLAIN" true 50

def demoServerFirst : SASLMechanism Nat :=
  SASLMechanism.make "ANONYMOUS" false 20

def demoRegistry : List (SASLMechanism Nat) :=
  [demoClientFirst, demoServerFirst]

def demoAdvertised : List String :=
  ["PLAIN", "ANONYMOUS"]

/-- The running fold returns an element of the candidate list that every
earlier candidate is strictly below in priority and every later candidate
is at or below: it is the first-registered candidate of maximal priority
(the stable tie-break). -/
theorem bestByPriority_decomp {Conn : Type} :
    ∀ (cs : List (SASLMechanism Conn)) (c : SASLMechanism Conn),
      ∃ l1 l2, c :: cs = l1 ++ bestByPriority c cs :: l2 ∧
        (∀ y ∈ l1, y.priority < (bestByPriority c cs).priority) ∧
        (∀ y ∈ l2, y.priority ≤ (bestByPriority c cs).priority)
  | [], c => ⟨[], [], rfl, by simp, by simp⟩
  | x :: xs, c => by
    have hunfold : bestByPriority c (x :: xs)
        = bestByPriority (if c.priority < x.priority then x else c) xs := rfl
    by_cases h : c.priority < x.priority
    case pos =>
      obtain ⟨l1, l2, hdec, hl1, hl2⟩ := bestByPriority_decomp xs x
      have hb : bestByPriority c (x :: xs) = bestByPriority x xs := by
        rw [hunfold, if_pos h]
      have hxle : x.priority ≤ (bestByPriority x xs).priority := by
        cases l1 with
        | nil =>
          have hx : x = bestByPriority x xs := by
            have := congrArg (fun l => l.head?) hdec
            simpa using this
          rw [← hx]
        | cons a l1' =>
          have hxa : x = a := by
            have := congrArg (fun l => l.head?) hdec
            simpa using this
          have ha : a.priority < (bestByPriority x xs).priority := hl1 a (by simp)
          have hpx : x.priority = a.priority := by rw [hxa]
          rw [hpx]
          exact le_of_lt ha
      refine ⟨c :: l1, l2, ?_, ?_, ?_⟩
      · rw [hb]
        simpa using congrArg (List.cons c) hdec
      · intro y hy
        rw [hb]
        rcases List.mem_cons.mp hy with hy | hy
        · subst hy
          exact lt_of_lt_of_le h hxle
        · exact hl1 y hy
      · intro y hy
        rw [hb]
        exact hl2 y hy
    case neg =>
      obtain ⟨l1, l2, hdec, hl1, hl2⟩ := bestByPriority_decomp xs c
      have hb : bestByPriority c (x :: xs) = bestByPriority c xs := by
        rw [hunfold, if_neg h]
      have hxc : x.priority ≤ c.priority := le_of_not_lt h
      cases l1 with
      | nil =>
        have hc : c = bestByPriority c xs := by
          have := congrArg (fun l => l.head?) hdec
          simpa using this
        have hxs : xs = l2 := by
          have := congrArg List.tail hdec
          simpa using this
        refine ⟨[], x :: xs, ?_, by simp, ?_⟩
        · rw [hb, ← hc]
          rfl
        · intro y hy
          rw [hb, ← hc]
          rcases List.mem_cons.mp hy with hy | hy
          · subst hy
            exact hxc
          · have hyl2 : y ∈ l2 := hxs ▸ hy
            have := hl2 y hyl2
            rw [← hc] at this
            exact this
      | cons a l1' =>
        have hca : c = a := by
          have := congrArg (fun l => l.head?) hdec
          simpa using this
        have hxs : xs = l1' ++ bestByPriority c xs :: l2 := by
          have := congrArg List.tail hdec
          simpa using this
        have hcb : c.priority < (bestByPriority c xs).priority := by
          have hpc : c.priority = a.priority := by rw [hca]
          rw [hpc]
          exact hl1 a (by simp)
        refine ⟨c :: x :: l1', l2, ?_, ?_, ?_⟩
        · rw [hb]
          have hcx : c :: x :: xs = c :: x :: (l1' ++ bestByPriority c xs :: l2) :=
            congrArg (fun t => c :: x :: t) hxs
          simpa using hcx
        · intro y hy
          rw [hb]
          rcases List.mem_cons.mp hy with hy | hy
          · subst hy
            exact hcb
          rcases List.mem_cons.mp hy with hy | hy
          · subst hy
            exact lt_of_le_of_lt hxc hcb
          · exact hl1 y (by simp [hy])
        · intro y hy
          rw [hb]
          exact hl2 y hy

/-- Claim C1: for every mechanism whose `isClientFirst` field is false and
every connection, `clientChallenge(connection)` throws the usage error and
does not invoke `onChallenge` — the result is the error regardless of what
the `onChallenge` handler is. -/
theorem clientChallenge_requires_clientFirst {Conn : Type} (m : SASLMechanism Conn)
    (connection : Conn) (h : m.isClientFirst = false) :
    m.clientChallenge connection
      = Except.error "clientChallenge should not be called if isClientFirst is false!" ∧
    ∀ f, SASLMechanism.clientChallenge { m with onChallenge := f } connection
      = Except.error "clientChallenge should not be called if isClientFirst is false!" := by
  constructor
  · simp [SASLMechanism.clientChallenge, h]
  · intro f
    simp [SASLMechanism.clientChallenge, h]

/-- Witness for C1 at a concrete server-first mechanism. -/
theorem clientChallenge_requires_clientFirst_witness :
    demoServerFirst.isClientFirst = false ∧
    (demoServerFirst.clientChallenge 0
      = Except.error "clientChallenge should not be called if isClientFirst is false!" ∧
     ∀ f, SASLMechanism.clientChallenge { demoServerFirst with onChallenge := f } 0
      = Except.error "clientChallenge should not be called if isClientFirst is false!") :=
  ⟨rfl, clientChallenge_requires_clientFirst demoServerFirst 0 rfl⟩

/-- Claim C2: selection over any registry and advertised list either
returns `noCompatibleMechanism` (a value, never a crash) when the filtered
intersection is empty, or returns a member of the filtered intersection
whose priority is strictly above every earlier candidate and at or above
every later one — i.e. the highest-priority candidate with the stable
first-registered tie-break.  Selection is a pure Lean function, hence
deterministic by construction. -/
theorem selectMechanism_spec {Conn : Type} (registry : List (SASLMechanism Conn))
    (advertised : List String) (connection : Conn) :
    (saslCandidates registry advertised connection = [] →
      selectMechanism registry advertised connection
        = SelectionResult.noCompatibleMechanism) ∧
    (∀ c cs, saslCandidates registry advertised connection = c :: cs →
      ∃ b l1 l2,
        selectMechanism registry advertised connection = SelectionResult.selected b ∧
        c :: cs = l1 ++ b :: l2 ∧
        (∀ y ∈ l1, y.priority < b.priority) ∧
        (∀ y ∈ l2, y.priority ≤ b.priority)) := by
  constructor
  · intro hnil
    unfold selectMechanism
    rw [hnil]
  · intro c cs hcons
    obtain ⟨l1, l2, hdec, hl1, hl2⟩ := bestByPriority_decomp cs c
    refine ⟨bestByPriority c cs, l1, l2, ?_, hdec, hl1, hl2⟩
    unfold selectMechanism
    rw [hcons]

/-- Witness for C2: a registry offering PLAIN (50) and ANONYMOUS (20); a
disjoint advertised list yields `noCompatibleMechanism`, and the matching
advertised list selects the strictly-highest-priority candidate. -/
theorem selectMechanism_spec_witness :
    selectMechanism demoRegistry ["GSSAPI"] 0 = SelectionResult.noCompatibleMechanism ∧
    ∃ b l1 l2,
      selectMechanism demoRegistry demoAdvertised 0 = SelectionResult.selected b ∧
      demoClientFirst :: [demoServerFirst] = l1 ++ b :: l2 ∧
      (∀ y ∈ l1, y.priority < b.priority) ∧
      (∀ y ∈ l2, y.priority ≤ b.priority) :=
  ⟨(selectMechanism_spec demoRegistry ["GSSAPI"] 0).1 rfl,
   (selectMechanism_spec demoRegistry demoAdvertised 0).2 demoClientFirst
     [demoServerFirst] rfl⟩

/-- Claim C3: `onFailure()` and `onSuccess()` release the bound connection
reference (set it to `none`); both are total (safe with no prior
`onStart`), and a second call to either after either is a no-op — the
whole mechanism state is left unchanged, so calling twice equals calling
once. -/
theorem onFailure_onSuccess_release_idempotent {Conn : Type} (m : SASLMechanism Conn) :
    (m.onFailure)._connection = none ∧
    (m.onSuccess)._connection = none ∧
    m.onFailure.onFailure = m.onFailure ∧
    m.onFailure.onSuccess = m.onFailure ∧
    m.onSuccess.onSuccess = m.onSuccess ∧
    m.onSuccess.onFailure = m.onSuccess :=
  ⟨rfl, rfl, rfl, rfl, rfl, rfl⟩

/-- Claim C4: on a client-first mechanism, `clientChallenge(connection)`
returns exactly `onChallenge(connection, absent challenge)` (same result,
same errors, since the `Except` value is identical), and `onSuccess` has
exactly the same effect on the mechanism state as `onFailure`. -/
theorem clientChallenge_eq_onChallenge_absent {Conn : Type} (m : SASLMechanism Conn)
    (connection : Conn) (h : m.isClientFirst = true) :
    m.clientChallenge connection = m.onChallenge connection none ∧
    m.onSuccess = m.onFailure := by
  refine ⟨?_, rfl⟩
  simp [SASLMechanism.clientChallenge, h]

/-- Witness for C4 at a concrete client-first mechanism. -/
theorem clientChallenge_eq_onChallenge_absent_witness :
    demoClientFirst.isClientFirst = true ∧
    (demoClientFirst.clientChallenge 0 = demoClientFirst.onChallenge 0 none ∧
     demoClientFirst.onSuccess = demoClientFirst.onFailure) :=
  ⟨rfl, clientChallenge_eq_onChallenge_absent demoClientFirst 0 rfl⟩

/-- Claim C5: the default `test` of the base mechanism returns `true` for
every connection and every call; being a pure Lean function of the
mechanism-independent argument, it has no side effect on mechanism state
and is safe to call repeatedly. -/
theorem default_test_always_true {Conn : Type} (name : String) (isClientFirst : Bool)
    (priority : Int) (connection : Conn) :
    (SASLMechanism.make name isClientFirst priority : SASLMechanism Conn).test connection
      = true ∧
    defaultTest connection = true :=
  ⟨rfl, rfl⟩

/-- Claim C6: the base mechanism's default `onChallenge` raises the
implement-challenge-handling error for every connection and every
challenge; it never returns a response. -/
theorem default_onChallenge_throws {Conn : Type} (name : String) (isClientFirst : Bool)
    (priority : Int) (connection : Conn) (challenge : Option String) :
    (SASLMechanism.make name isClientFirst priority : SASLMechanism Conn).onChallenge
        connection challenge
      = Except.error "You should implement challenge handling!" ∧
    defaultOnChallenge connection challenge
      = Except.error "You should implement challenge handling!" :=
  ⟨rfl, rfl⟩

/-- Claim C7: the default priorities of the concrete variants are exactly
72, 71, 70, 60, 50, 40, 30, 20, 10 for SCRAM-SHA-512 down to EXTERNAL, in
strictly descending order, and the priority of any mechanism can be
overridden to any value without touching its other fields (name,
first-speaker flag, `test`, `onChallenge`) — priority is pure data the
selection logic merely reads. -/
theorem default_priorities_descending_overridable :
    defaultMechanismPriorities.map Prod.fst
      = ["SCRAM-SHA-512", "SCRAM-SHA-384", "SCRAM-SHA-256", "SCRAM-SHA-1",
         "PLAIN", "OAUTHBEARER", "X-OAUTH2", "ANONYMOUS", "EXTERNAL"] ∧
    defaultMechanismPriorities.map Prod.snd = [72, 71, 70, 60, 50, 40, 30, 20, 10] ∧
    List.Chain' (fun a b => b.2 < a.2) defaultMechanismPriorities ∧
    ∀ (Conn : Type) (m : SASLMechanism Conn) (p : Int),
      ({ m with priority := p } : SASLMechanism Conn).priority = p ∧
      ({ m with priority := p } : SASLMechanism Conn).mechname = m.mechname ∧
      ({ m with priority := p } : SASLMechanism Conn).isClientFirst = m.isClientFirst ∧
      ({ m with priority := p } : SASLMechanism Conn).test = m.test ∧
      ({ m with priority := p } : SASLMechanism Conn).onChallenge = m.onChallenge := by
  refine ⟨rfl, by decide, ?_, ?_⟩
  · norm_num [defaultMechanismPriorities, List.chain'_cons]
  intro Conn m p
  exact ⟨rfl, rfl, rfl, rfl, rfl⟩

/-- Claim C8: a second `onStart` does not guard against rebinding: it
silently overwrites the stored connection, and starting twice equals
starting once with the second connection. -/
theorem onStart_rebinds_connection {Conn : Type} (m : SASLMechanism Conn) (c1 c2 : Conn) :
    (m.onStart c1)._connection = some c1 ∧
    (m.onStart c1).onStart c2 = m.onStart c2 ∧
    ((m.onStart c1).onStart c2)._connection = some c2 :=
  ⟨rfl, rfl, rfl⟩

/-- Claim C9: `onStart`, `onFailure` and `onSuccess` modify only the
`_connection` field — the constructor-set `mechname`, `isClientFirst` and
`priority` are unchanged by each of these calls. -/
theorem lifecycle_modifies_only_connection {Conn : Type} (m : SASLMechanism Conn)
    (c : Conn) :
    ((m.onStart c).mechname = m.mechname ∧
      (m.onStart c).isClientFirst = m.isClientFirst ∧
      (m.onStart c).priority = m.priority) ∧
    (m.onFailure.mechname = m.mechname ∧
      m.onFailure.isClientFirst = m.isClientFirst ∧
      m.onFailure.priority = m.priority) ∧
    (m.onSuccess.mechname = m.mechname ∧
      m.onSuccess.isClientFirst = m.isClientFirst ∧
      m.onSuccess.priority = m.priority) :=
  ⟨⟨rfl, rfl, rfl⟩, ⟨rfl, rfl, rfl⟩, ⟨rfl, rfl, rfl⟩⟩

/-- Claim C10: the default `test` result does not depend on its connection
argument — any two connections, including an absent one (`Option.none`),
give the same answer, a two-run noninterference statement. -/
theorem default_test_connection_independent {Conn : Type} (name : String)
    (isClientFirst : Bool) (priority : Int) (c1 c2 : Option Conn) :
    defaultTest c1 = defaultTest c2 ∧
    ∀ d1 d2 : Conn,
      (SASLMechanism.make name isClientFirst priority : SASLMechanism Conn).test d1
        = (SASLMechanism.make name isClientFirst priority : SASLMechanism Conn).test d2 :=
  ⟨rfl, fun _ _ => rfl⟩
